import Mathlib

/-!
Shallow embedding of the interact-rs candidate-selection core
(`src/scripts.rs`, `src/game.rs`).

The live game world is modelled by a `World` structure packaging the
read-only accessor functions of `game.rs` (object-manager traversal,
per-entity attributes).  Machine integers (`u32`, `u64`, `i32`) are
modelled as `Nat`/`Int`; the claims never exercise overflow.  `f32`
distance values flowing through the engine are modelled as exact
rationals; the Euclidean geometry of `C3Vector::distance` itself is
embedded over the reals below.
-/

namespace Interact

/-- `ObjectType` from `game.rs`: object types in WoW. -/
inductive ObjectType where
  | None
  | Item
  | Container
  | Unit
  | Player
  | GameObject
  | DynamicObject
  | Corpse
  deriving DecidableEq

/-- `impl From<u32> for ObjectType` from `game.rs`. -/
def ObjectType.ofU32 (value : Nat) : ObjectType :=
  match value with
  | 1 => ObjectType.Item
  | 2 => ObjectType.Container
  | 3 => ObjectType.Unit
  | 4 => ObjectType.Player
  | 5 => ObjectType.GameObject
  | 6 => ObjectType.DynamicObject
  | 7 => ObjectType.Corpse
  | _ => ObjectType.None

/-- `C3Vector` from `game.rs` (fields in the source's memory order
`y`, `x`, `z`), with coordinates as reals in place of `f32`. -/
@[ext]
structure C3Vector where
  y : ℝ
  x : ℝ
  z : ℝ

/-- `C3Vector::distance` from `game.rs`: 3D Euclidean distance. -/
noncomputable def C3Vector.distance (self other : C3Vector) : ℝ :=
  let dx := other.x - self.x
  let dy := other.y - self.y
  let dz := other.z - self.z
  Real.sqrt (dx * dx + dy * dy + dz * dz)

/-- `MAX_DISTANCE` from `scripts.rs`: maximum interaction distance in yards. -/
def MAX_DISTANCE : ℚ := 5

/-- `INITIAL_DISTANCE` from `scripts.rs`: initial "infinite" distance. -/
def INITIAL_DISTANCE : ℚ := 1000

/-- `Candidate` from `scripts.rs`: best candidate for one priority level. -/
structure Candidate where
  guid : Nat
  pointer : Nat
  obj_type : ObjectType
  distance : ℚ
  deriving DecidableEq

/-- `Candidate::new` from `scripts.rs`. -/
def Candidate.new : Candidate :=
  { guid := 0, pointer := 0, obj_type := ObjectType.None, distance := INITIAL_DISTANCE }

/-- `Candidate::is_valid` from `scripts.rs`. -/
def Candidate.is_valid (c : Candidate) : Bool :=
  c.obj_type != ObjectType.None

/-- `Candidate::update` from `scripts.rs`: replace the stored entity
iff the new one is strictly closer. -/
def Candidate.update (c : Candidate) (guid : Nat) (pointer : Nat)
    (obj_type : ObjectType) (distance : ℚ) : Candidate :=
  if distance < c.distance then
    { guid := guid, pointer := pointer, obj_type := obj_type, distance := distance }
  else c

/-- `BLACKLISTED_OBJECTS` from `game.rs`. -/
def BLACKLISTED_OBJECTS : List Nat := [179830, 179831, 179785, 179786]

/-- `is_blacklisted` from `game.rs` (the lazily built `HashSet` is a pure
membership structure over `BLACKLISTED_OBJECTS`). -/
def is_blacklisted (id : Nat) : Bool :=
  BLACKLISTED_OBJECTS.contains id

/-- One snapshot of the live world as seen through the read-only accessors
of `game.rs`.  Positions are an abstract type `π` together with the
observed `C3Vector::distance` values (`distance` field); this keeps the
engine computable while the geometry is verified separately on
`C3Vector.distance`.

* `player_guid` — `game::get_player_guid(objects)`
* `get_object_pointer` — `game::get_object_pointer` (`None` for a null pointer)
* `entries` — the successive `current` values delivered by
  `game::get_first_object` / `game::get_next_object`
* `get_object_guid` — `game::get_object_guid(current)`
* `get_object_type` — `game::get_object_type(pointer)`
* `get_summoned_by_guid` — `game::get_summoned_by_guid(pointer)`
* `get_unit_position` / `get_object_position` — position reads
* `distance` — `C3Vector::distance` on the read positions
* `get_unit_health` — `game::get_unit_health(current)` (an `i32`)
* `is_unit_lootable` / `is_unit_skinnable` — dynamic-flag reads
* `get_gameobject_id` — `game::get_gameobject_id(pointer)` -/
structure World (π : Type) where
  player_guid : Nat
  get_object_pointer : Nat → Option Nat
  entries : List Nat
  get_object_guid : Nat → Nat
  get_object_type : Nat → ObjectType
  get_summoned_by_guid : Nat → Nat
  get_unit_position : Nat → π
  get_object_position : Nat → π
  distance : π → π → ℚ
  get_unit_health : Nat → Int
  is_unit_lootable : Nat → Bool
  is_unit_skinnable : Nat → Bool
  get_gameobject_id : Nat → Nat

variable {π : Type}

/-- `is_player_summoned` from `scripts.rs`: check whether an object was
summoned by a player. -/
def is_player_summoned (w : World π) (pointer : Nat) : Bool :=
  let summoned_by_guid := w.get_summoned_by_guid pointer
  if summoned_by_guid = 0 then
    false
  else
    match w.get_object_pointer summoned_by_guid with
    | Option.none => false
    | Option.some summoned_by => w.get_object_type summoned_by == ObjectType.Player

/-- `process_unit` from `scripts.rs`: route a unit into the lootable /
skinnable / alive candidate according to its health. -/
def process_unit (w : World π) (current : Nat) (guid : Nat) (obj_type : ObjectType)
    (distance : ℚ) (lootable skinnable alive_unit : Candidate) :
    Candidate × Candidate × Candidate :=
  let health := w.get_unit_health current
  if health = 0 then
    let is_lootable := w.is_unit_lootable current
    let is_skinnable := w.is_unit_skinnable current
    if is_lootable then
      (lootable.update guid current obj_type distance, skinnable, alive_unit)
    else if is_skinnable then
      (lootable, skinnable.update guid current obj_type distance, alive_unit)
    else
      (lootable, skinnable, alive_unit)
  else if health > 0 then
    (lootable, skinnable, alive_unit.update guid current obj_type distance)
  else
    (lootable, skinnable, alive_unit)

/-- The four per-priority-class candidates accumulated by
`find_best_candidate`'s loop. -/
structure Cands where
  lootable : Candidate
  gameobject : Candidate
  skinnable : Candidate
  alive_unit : Candidate
  deriving DecidableEq

/-- The four freshly constructed candidates at the start of a pass. -/
def Cands.init : Cands :=
  { lootable := Candidate.new, gameobject := Candidate.new,
    skinnable := Candidate.new, alive_unit := Candidate.new }

/-- The `let obj_pos = match obj_type {...}` step of the traversal loop:
units and game objects have a position, all other kinds are skipped. -/
def entity_position (w : World π) (obj_type : ObjectType) (current : Nat) : Option π :=
  match obj_type with
  | ObjectType.Unit => Option.some (w.get_unit_position current)
  | ObjectType.GameObject => Option.some (w.get_object_position current)
  | _ => Option.none

/-- The body of `find_best_candidate`'s traversal loop in `scripts.rs`,
for one list entry `current`. -/
def process_entry (w : World π) (player_pos : π) (current : Nat) (s : Cands) : Cands :=
  let guid := w.get_object_guid current
  match w.get_object_pointer guid with
  | Option.none => s
  | Option.some pointer_raw =>
    let obj_type := w.get_object_type pointer_raw
    -- Skip objects summoned by players
    if is_player_summoned w pointer_raw then s
    else
      -- Get position and calculate distance
      match entity_position w obj_type current with
      | Option.none => s
      | Option.some obj_pos =>
        let distance := w.distance player_pos obj_pos
        -- Check if within interaction range
        if distance ≤ MAX_DISTANCE then
          match obj_type with
          | ObjectType.Unit =>
            let r := process_unit w current guid obj_type distance
              s.lootable s.skinnable s.alive_unit
            { s with lootable := r.1, skinnable := r.2.1, alive_unit := r.2.2 }
          | ObjectType.GameObject =>
            let id := w.get_gameobject_id pointer_raw
            if !is_blacklisted id then
              { s with gameobject := s.gameobject.update guid pointer_raw obj_type distance }
            else s
          | _ => s
        else s

/-- The `while current != 0 && (current & 1) == 0` traversal of
`find_best_candidate`, over the successive `current` values. -/
def scan (w : World π) (player_pos : π) : List Nat → Cands → Cands
  | [], s => s
  | current :: rest, s =>
    if current != 0 && current &&& 1 == 0 then
      scan w player_pos rest (process_entry w player_pos current s)
    else s

/-- `find_best_candidate` from `scripts.rs` (the `autoloot` argument is
read by the Lua layer and modelled in `Script_InteractNearest`). -/
def find_best_candidate (w : World π) : Option Candidate :=
  match w.get_object_pointer w.player_guid with
  | Option.none => Option.none
  | Option.some player =>
    let player_pos := w.get_unit_position player
    let s := scan w player_pos w.entries Cands.init
    -- Select by priority: lootable > gameobject > skinnable > alive
    if s.lootable.is_valid then Option.some s.lootable
    else if s.gameobject.is_valid then Option.some s.gameobject
    else if s.skinnable.is_valid then Option.some s.skinnable
    else if s.alive_unit.is_valid then Option.some s.alive_unit
    else Option.none

/-- The spec's resolution rule, stated in its own words: return the first
valid candidate in the priority order lootable, gameobject, skinnable,
alive; nothing if none is valid. -/
def priority_resolve (s : Cands) : Option Candidate :=
  List.find? (fun c => c.is_valid) [s.lootable, s.gameobject, s.skinnable, s.alive_unit]

/-- `ERR_USAGE` from `scripts.rs`. -/
def ERR_USAGE : String := "Usage: InteractNearest(autoloot)"

/-- The Lua-layer observations consumed by `Script_InteractNearest`:
`game::is_in_world()`, `lua.isnumber(l, 1)` and `lua.tonumber(l, 1)`
(the `f64` modelled as an exact rational). -/
structure LuaArgs where
  is_in_world : Bool
  isnumber1 : Bool
  tonumber1 : ℚ

/-- Rust's saturating `as i32` cast on a float value: truncate toward
zero and clamp to the `i32` range. -/
def as_i32 (x : ℚ) : Int :=
  let t : Int := if 0 ≤ x then Int.floor x else Int.ceil x
  max (-(2 ^ 31)) (min (2 ^ 31 - 1) t)

/-- The externally visible outcome of one `Script_InteractNearest` call:
return 0 with no action, raise the usage error via `lua.error` (which
never returns), or interact (returning 1). -/
inductive Outcome where
  | no_result
  | usage_error (msg : String)
  | interact_unit (guid : Nat) (pointer : Nat) (autoloot : Int)
  | interact_object (pointer : Nat) (autoloot : Int)
  deriving DecidableEq

/-- `Script_InteractNearest` from `scripts.rs`. -/
def Script_InteractNearest (args : LuaArgs) (w : World π) : Outcome :=
  -- Check if player is in world (early exit like C version)
  if !args.is_in_world then Outcome.no_result
  -- Validate arguments
  else if !args.isnumber1 then Outcome.usage_error ERR_USAGE
  else
    let autoloot := as_i32 args.tonumber1
    match find_best_candidate w with
    | Option.none => Outcome.no_result
    | Option.some candidate =>
      match candidate.obj_type with
      | ObjectType.Unit => Outcome.interact_unit candidate.guid candidate.pointer autoloot
      | ObjectType.GameObject => Outcome.interact_object candidate.pointer autoloot
      | _ => Outcome.no_result

/-- One recorded call of `Candidate::update`. -/
structure Upd where
  guid : Nat
  pointer : Nat
  obj_type : ObjectType
  distance : ℚ
  deriving DecidableEq

/-- A sequence of `Candidate::update` calls applied in order. -/
def apply_updates (c : Candidate) (us : List Upd) : Candidate :=
  us.foldl (fun c u => c.update u.guid u.pointer u.obj_type u.distance) c

/-- A candidate slot only ever holds kind `t` (or is still invalid). -/
def cand_kind_ok (c : Candidate) (t : ObjectType) : Prop :=
  c.obj_type = ObjectType.None ∨ c.obj_type = t

/-- The unit slots hold only Unit-kind entities and the gameobject slot
only GameObject-kind entities. -/
def cands_kind_ok (s : Cands) : Prop :=
  cand_kind_ok s.lootable ObjectType.Unit ∧
  cand_kind_ok s.gameobject ObjectType.GameObject ∧
  cand_kind_ok s.skinnable ObjectType.Unit ∧
  cand_kind_ok s.alive_unit ObjectType.Unit

/-!
### Concrete world snapshots

Position handles are small naturals; the player (guid 1, pointer 100)
stands at position 0.  Non-integer distances are written with `mkRat`.
-/

/-- A lootable dead unit at distance 4.9 (guid 2, entry 10, pointer 200)
and a non-blacklisted game object at distance 0.5 (guid 3, entry 20,
pointer 300), both in range. -/
def wEx : World Nat :=
  { player_guid := 1
    get_object_pointer := fun g =>
      if g = 1 then Option.some 100 else if g = 2 then Option.some 200
      else if g = 3 then Option.some 300 else Option.none
    entries := [10, 20]
    get_object_guid := fun c => if c = 10 then 2 else if c = 20 then 3 else 0
    get_object_type := fun p =>
      if p = 100 then ObjectType.Player else if p = 200 then ObjectType.Unit
      else if p = 300 then ObjectType.GameObject else ObjectType.None
    get_summoned_by_guid := fun _ => 0
    get_unit_position := fun c => if c = 100 then 0 else if c = 10 then 1 else 3
    get_object_position := fun c => if c = 20 then 2 else 3
    distance := fun a b =>
      if a = 0 ∧ b = 1 then mkRat 49 10 else if a = 0 ∧ b = 2 then mkRat 1 2 else 1000
    get_unit_health := fun _ => 0
    is_unit_lootable := fun _ => true
    is_unit_skinnable := fun _ => false
    get_gameobject_id := fun _ => 5 }

/-- A single alive unit (guid 4, entry 30, pointer 400) at distance
exactly 5.0. -/
def w5 : World Nat :=
  { player_guid := 1
    get_object_pointer := fun g =>
      if g = 1 then Option.some 100 else if g = 4 then Option.some 400 else Option.none
    entries := [30]
    get_object_guid := fun c => if c = 30 then 4 else 0
    get_object_type := fun p =>
      if p = 100 then ObjectType.Player else if p = 400 then ObjectType.Unit
      else ObjectType.None
    get_summoned_by_guid := fun _ => 0
    get_unit_position := fun c => if c = 100 then 0 else if c = 30 then 1 else 3
    get_object_position := fun _ => 3
    distance := fun a b => if a = 0 ∧ b = 1 then 5 else 1000
    get_unit_health := fun _ => 1
    is_unit_lootable := fun _ => false
    is_unit_skinnable := fun _ => false
    get_gameobject_id := fun _ => 5 }

/-- A single blacklisted game object (guid 5, entry 40, pointer 500,
object id 179830) at distance 1.0 — the sole entity in range. -/
def wBlack : World Nat :=
  { player_guid := 1
    get_object_pointer := fun g =>
      if g = 1 then Option.some 100 else if g = 5 then Option.some 500 else Option.none
    entries := [40]
    get_object_guid := fun c => if c = 40 then 5 else 0
    get_object_type := fun p =>
      if p = 100 then ObjectType.Player else if p = 500 then ObjectType.GameObject
      else ObjectType.None
    get_summoned_by_guid := fun _ => 0
    get_unit_position := fun c => if c = 100 then 0 else 3
    get_object_position := fun c => if c = 40 then 1 else 3
    distance := fun a b => if a = 0 ∧ b = 1 then 1 else 1000
    get_unit_health := fun _ => 1
    is_unit_lootable := fun _ => false
    is_unit_skinnable := fun _ => false
    get_gameobject_id := fun _ => 179830 }

/-- A single in-range, otherwise eligible unit (guid 6, entry 50,
pointer 600) whose health is −1. -/
def wNeg : World Nat :=
  { player_guid := 1
    get_object_pointer := fun g =>
      if g = 1 then Option.some 100 else if g = 6 then Option.some 600 else Option.none
    entries := [50]
    get_object_guid := fun c => if c = 50 then 6 else 0
    get_object_type := fun p =>
      if p = 100 then ObjectType.Player else if p = 600 then ObjectType.Unit
      else ObjectType.None
    get_summoned_by_guid := fun _ => 0
    get_unit_position := fun c => if c = 100 then 0 else if c = 50 then 1 else 3
    get_object_position := fun _ => 3
    distance := fun a b => if a = 0 ∧ b = 1 then 3 else 1000
    get_unit_health := fun c => if c = 50 then -1 else 0
    is_unit_lootable := fun _ => true
    is_unit_skinnable := fun _ => true
    get_gameobject_id := fun _ => 5 }

/-- A single in-range alive unit (guid 7, entry 60, pointer 700) whose
`summoned_by` guid 1 resolves to the player (kind Player). -/
def wSum : World Nat :=
  { player_guid := 1
    get_object_pointer := fun g =>
      if g = 1 then Option.some 100 else if g = 7 then Option.some 700 else Option.none
    entries := [60]
    get_object_guid := fun c => if c = 60 then 7 else 0
    get_object_type := fun p =>
      if p = 100 then ObjectType.Player else if p = 700 then ObjectType.Unit
      else ObjectType.None
    get_summoned_by_guid := fun p => if p = 700 then 1 else 0
    get_unit_position := fun c => if c = 100 then 0 else if c = 60 then 1 else 3
    get_object_position := fun _ => 3
    distance := fun a b => if a = 0 ∧ b = 1 then 2 else 1000
    get_unit_health := fun _ => 1
    is_unit_lootable := fun _ => false
    is_unit_skinnable := fun _ => false
    get_gameobject_id := fun _ => 5 }

/-- A single unit (guid 8, entry 70, pointer 800) at distance 6.0,
beyond the interaction range. -/
def wFar : World Nat :=
  { player_guid := 1
    get_object_pointer := fun g =>
      if g = 1 then Option.some 100 else if g = 8 then Option.some 800 else Option.none
    entries := [70]
    get_object_guid := fun c => if c = 70 then 8 else 0
    get_object_type := fun p =>
      if p = 100 then ObjectType.Player else if p = 800 then ObjectType.Unit
      else ObjectType.None
    get_summoned_by_guid := fun _ => 0
    get_unit_position := fun c => if c = 100 then 0 else if c = 70 then 1 else 3
    get_object_position := fun c => if c = 70 then 1 else 3
    distance := fun a b => if a = 0 ∧ b = 1 then 6 else 1000
    get_unit_health := fun _ => 1
    is_unit_lootable := fun _ => false
    is_unit_skinnable := fun _ => false
    get_gameobject_id := fun _ => 5 }

/-- A world whose player handle does not resolve. -/
def wNoP : World Nat :=
  { player_guid := 9
    get_object_pointer := fun _ => Option.none
    entries := [10, 20]
    get_object_guid := fun _ => 0
    get_object_type := fun _ => ObjectType.None
    get_summoned_by_guid := fun _ => 0
    get_unit_position := fun _ => 0
    get_object_position := fun _ => 0
    distance := fun _ _ => 1
    get_unit_health := fun _ => 0
    is_unit_lootable := fun _ => false
    is_unit_skinnable := fun _ => false
    get_gameobject_id := fun _ => 5 }

end Interact

namespace Interact

variable {π : Type}

/-! ### Helper lemmas on `Candidate.update` -/

theorem Candidate.update_distance_eq (c : Candidate) (g p : Nat) (t : ObjectType) (d : ℚ) :
    (c.update g p t d).distance = min c.distance d := by
  unfold Candidate.update
  split
  · next h => simp [min_eq_right (le_of_lt h)]
  · next h => simp [min_eq_left (not_lt.mp h)]

theorem apply_updates_nil (c : Candidate) : apply_updates c [] = c := rfl

theorem apply_updates_cons (c : Candidate) (u : Upd) (us : List Upd) :
    apply_updates c (u :: us) =
      apply_updates (c.update u.guid u.pointer u.obj_type u.distance) us := rfl

theorem apply_updates_append (c : Candidate) (us vs : List Upd) :
    apply_updates c (us ++ vs) = apply_updates (apply_updates c us) vs := by
  simp [apply_updates, List.foldl_append]

theorem apply_updates_distance (c : Candidate) (us : List Upd) :
    (apply_updates c us).distance = us.foldl (fun a u => min a u.distance) c.distance := by
  induction us generalizing c with
  | nil => rfl
  | cons u us ih =>
    rw [apply_updates_cons, ih, Candidate.update_distance_eq]
    rfl

theorem apply_updates_noop (c : Candidate) (us : List Upd)
    (h : ∀ u ∈ us, ¬ u.distance < c.distance) : apply_updates c us = c := by
  induction us with
  | nil => rfl
  | cons u us ih =>
    rw [apply_updates_cons]
    have hu : c.update u.guid u.pointer u.obj_type u.distance = c :=
      if_neg (h u (List.mem_cons_self u us))
    rw [hu]
    exact ih fun v hv => h v (List.mem_cons_of_mem u hv)

theorem foldl_min_lt (x : ℚ) (init : ℚ) (l : List Upd) (hx : x < init)
    (hl : ∀ v ∈ l, x < v.distance) :
    x < l.foldl (fun a u => min a u.distance) init := by
  induction l generalizing init with
  | nil => exact hx
  | cons v l ih =>
    exact ih (min init v.distance)
      (lt_min hx (hl v (List.mem_cons_self v l)))
      (fun u hu => hl u (List.mem_cons_of_mem v hu))

end Interact

namespace Interact

variable {π : Type}

/-- C9: for all pairs of positions, `distance(a,b) = distance(b,a)` and
`distance(a,a) = 0`; the distance is zero iff the two positions coincide. -/
theorem claim_distance_metric (a b : C3Vector) :
    a.distance b = b.distance a ∧ a.distance a = 0 ∧ (a.distance b = 0 ↔ a = b) := by
  refine ⟨?_, ?_, ?_⟩
  · unfold C3Vector.distance
    ring_nf
  · unfold C3Vector.distance
    simp
  · unfold C3Vector.distance
    constructor
    · intro h
      have hS : (b.x - a.x) * (b.x - a.x) + (b.y - a.y) * (b.y - a.y) +
          (b.z - a.z) * (b.z - a.z) ≤ 0 := Real.sqrt_eq_zero'.mp h
      have h1 : (b.x - a.x) * (b.x - a.x) = 0 := by
        nlinarith [mul_self_nonneg (b.x - a.x), mul_self_nonneg (b.y - a.y),
          mul_self_nonneg (b.z - a.z)]
      have h2 : (b.y - a.y) * (b.y - a.y) = 0 := by
        nlinarith [mul_self_nonneg (b.x - a.x), mul_self_nonneg (b.y - a.y),
          mul_self_nonneg (b.z - a.z)]
      have h3 : (b.z - a.z) * (b.z - a.z) = 0 := by
        nlinarith [mul_self_nonneg (b.x - a.x), mul_self_nonneg (b.y - a.y),
          mul_self_nonneg (b.z - a.z)]
      have e1 := sub_eq_zero.mp (mul_self_eq_zero.mp h1)
      have e2 := sub_eq_zero.mp (mul_self_eq_zero.mp h2)
      have e3 := sub_eq_zero.mp (mul_self_eq_zero.mp h3)
      ext
      · exact e2.symm
      · exact e1.symm
      · exact e3.symm
    · rintro rfl
      simp

/-- C2: `Candidate::update` replaces the stored entity iff the new
distance is strictly smaller (ties keep the incumbent); over any
sequence of updates the stored distance is the running minimum of the
distances seen (hence non-increasing), and the stored entity is the
first one attaining that minimum. -/
theorem claim_update_strictly_closer (c : Candidate) (g p : Nat) (t : ObjectType)
    (d : ℚ) (us : List Upd) :
    (d < c.distance →
      c.update g p t d = { guid := g, pointer := p, obj_type := t, distance := d }) ∧
    (¬ d < c.distance → c.update g p t d = c) ∧
    (apply_updates c us).distance = us.foldl (fun a u => min a u.distance) c.distance ∧
    (apply_updates c (us ++ [{ guid := g, pointer := p, obj_type := t, distance := d }])).distance
      ≤ (apply_updates c us).distance ∧
    (∀ l₁ u l₂, us = l₁ ++ u :: l₂ → u.distance < c.distance →
      (∀ v ∈ l₁, u.distance < v.distance) → (∀ v ∈ l₂, u.distance ≤ v.distance) →
      apply_updates c us =
        { guid := u.guid, pointer := u.pointer, obj_type := u.obj_type,
          distance := u.distance }) := by
  refine ⟨fun h => if_pos h, fun h => if_neg h, apply_updates_distance c us, ?_, ?_⟩
  · rw [apply_updates_append, apply_updates_cons, apply_updates_nil,
      Candidate.update_distance_eq]
    exact min_le_left _ _
  · rintro l₁ u l₂ rfl hu h₁ h₂
    rw [apply_updates_append, apply_updates_cons]
    have hlt : u.distance < (apply_updates c l₁).distance := by
      rw [apply_updates_distance]
      exact foldl_min_lt u.distance c.distance l₁ hu h₁
    simp only [Candidate.update, if_pos hlt]
    exact apply_updates_noop _ l₂ fun v hv => not_lt.mpr (h₂ v hv)

/-- Witness for C2 at a concrete input: two updates at equal distance 3,
the first one wins; the stored distance is the running minimum. -/
theorem claim_update_strictly_closer_witness :
    apply_updates Candidate.new
        [{ guid := 1, pointer := 11, obj_type := ObjectType.Unit, distance := 3 },
         { guid := 2, pointer := 22, obj_type := ObjectType.Unit, distance := 3 }] =
      { guid := 1, pointer := 11, obj_type := ObjectType.Unit, distance := 3 } ∧
    Candidate.new.update 1 11 ObjectType.Unit 3 =
      { guid := 1, pointer := 11, obj_type := ObjectType.Unit, distance := 3 } := by
  constructor
  · exact (claim_update_strictly_closer Candidate.new 1 11 ObjectType.Unit 3
      [{ guid := 1, pointer := 11, obj_type := ObjectType.Unit, distance := 3 },
       { guid := 2, pointer := 22, obj_type := ObjectType.Unit, distance := 3 }]).2.2.2.2
      [] { guid := 1, pointer := 11, obj_type := ObjectType.Unit, distance := 3 }
      [{ guid := 2, pointer := 22, obj_type := ObjectType.Unit, distance := 3 }]
      rfl (by decide) (by decide) (by decide)
  · exact (claim_update_strictly_closer Candidate.new 1 11 ObjectType.Unit 3 []).1 (by decide)

/-- C8: when the controlling agent is not in-world the command returns
no-result regardless of its argument; with an in-world agent and a
non-numeric first argument it raises the fixed usage error without
traversing the world (the outcome is independent of the world snapshot). -/
theorem claim_entry_point_checks (q : ℚ) (w wo : World π) (b : Bool) :
    Script_InteractNearest { is_in_world := false, isnumber1 := b, tonumber1 := q } w =
      Outcome.no_result ∧
    Script_InteractNearest { is_in_world := true, isnumber1 := false, tonumber1 := q } w =
      Outcome.usage_error "Usage: InteractNearest(autoloot)" ∧
    Script_InteractNearest { is_in_world := true, isnumber1 := false, tonumber1 := q } w =
      Script_InteractNearest { is_in_world := true, isnumber1 := false, tonumber1 := q } wo :=
  ⟨rfl, rfl, rfl⟩

end Interact

namespace Interact

variable {π : Type}

theorem process_entry_unresolved (w : World π) (pos : π) (current : Nat) (s : Cands)
    (h : w.get_object_pointer (w.get_object_guid current) = Option.none) :
    process_entry w pos current s = s := by
  simp only [process_entry, h]

theorem process_entry_summoned (w : World π) (pos : π) (current : Nat) (s : Cands) (ptr : Nat)
    (hres : w.get_object_pointer (w.get_object_guid current) = Option.some ptr)
    (hsum : is_player_summoned w ptr = true) :
    process_entry w pos current s = s := by
  simp only [process_entry, hres, hsum, if_true]

theorem process_entry_far (w : World π) (pos : π) (current : Nat) (s : Cands)
    (hu : MAX_DISTANCE < w.distance pos (w.get_unit_position current))
    (hg : MAX_DISTANCE < w.distance pos (w.get_object_position current)) :
    process_entry w pos current s = s := by
  cases hres : w.get_object_pointer (w.get_object_guid current) with
  | none => exact process_entry_unresolved w pos current s hres
  | some ptr =>
    by_cases hsum : is_player_summoned w ptr = true
    · exact process_entry_summoned w pos current s ptr hres hsum
    · rw [Bool.not_eq_true] at hsum
      cases htype : w.get_object_type ptr <;>
        simp [process_entry, hres, hsum, htype, entity_position, not_le.mpr hu, not_le.mpr hg]

theorem process_entry_other_kind (w : World π) (pos : π) (current : Nat) (s : Cands) (ptr : Nat)
    (hres : w.get_object_pointer (w.get_object_guid current) = Option.some ptr)
    (h1 : w.get_object_type ptr ≠ ObjectType.Unit)
    (h2 : w.get_object_type ptr ≠ ObjectType.GameObject) :
    process_entry w pos current s = s := by
  by_cases hsum : is_player_summoned w ptr = true
  · exact process_entry_summoned w pos current s ptr hres hsum
  · rw [Bool.not_eq_true] at hsum
    cases htype : w.get_object_type ptr
    all_goals first
      | exact absurd htype h1
      | exact absurd htype h2
      | simp [process_entry, hres, hsum, htype, entity_position]

theorem process_entry_blacklisted (w : World π) (pos : π) (current : Nat) (s : Cands) (ptr : Nat)
    (hres : w.get_object_pointer (w.get_object_guid current) = Option.some ptr)
    (htype : w.get_object_type ptr = ObjectType.GameObject)
    (hbl : is_blacklisted (w.get_gameobject_id ptr) = true) :
    process_entry w pos current s = s := by
  by_cases hsum : is_player_summoned w ptr = true
  · exact process_entry_summoned w pos current s ptr hres hsum
  · rw [Bool.not_eq_true] at hsum
    by_cases hd : w.distance pos (w.get_object_position current) ≤ MAX_DISTANCE <;>
      simp [process_entry, hres, hsum, htype, entity_position, hd, hbl]

theorem scan_nil (w : World π) (pos : π) (s : Cands) : scan w pos [] s = s := rfl

theorem scan_cons_step (w : World π) (pos : π) (current : Nat) (rest : List Nat) (s : Cands)
    (h1 : current ≠ 0) (h2 : current &&& 1 = 0) :
    scan w pos (current :: rest) s = scan w pos rest (process_entry w pos current s) := by
  have hb : (current != 0 && current &&& 1 == 0) = true := by
    simp [bne_iff_ne, h1, h2]
  simp only [scan, hb, if_true]

theorem scan_cons_terminal (w : World π) (pos : π) (current : Nat) (rest : List Nat) (s : Cands)
    (h : current = 0 ∨ current &&& 1 ≠ 0) :
    scan w pos (current :: rest) s = s := by
  have hb : (current != 0 && current &&& 1 == 0) = false := by
    rcases h with h | h
    · subst h; rfl
    · have h2 : (current &&& 1 == 0) = false := beq_eq_false_iff_ne.mpr h
      rw [h2, Bool.and_false]
  simp only [scan, hb, Bool.false_eq_true, if_false]

theorem scan_noop (w : World π) (pos : π) (l : List Nat) (s : Cands)
    (h : ∀ e ∈ l, ∀ s', process_entry w pos e s' = s') :
    scan w pos l s = s := by
  induction l generalizing s with
  | nil => rfl
  | cons e rest ih =>
    by_cases he : e ≠ 0 ∧ e &&& 1 = 0
    · rw [scan_cons_step w pos e rest s he.1 he.2, h e (List.mem_cons_self e rest)]
      exact ih s fun x hx s' => h x (List.mem_cons_of_mem e hx) s'
    · refine scan_cons_terminal w pos e rest s ?_
      rcases not_and_or.mp he with h0 | h1
      · exact Or.inl (not_not.mp h0)
      · exact Or.inr h1

theorem scan_skip (w : World π) (pos : π) (e : Nat)
    (hpe : ∀ s, process_entry w pos e s = s) (he0 : e ≠ 0) (he1 : e &&& 1 = 0) :
    ∀ (l₁ l₂ : List Nat) (s : Cands),
      scan w pos (l₁ ++ e :: l₂) s = scan w pos (l₁ ++ l₂) s := by
  intro l₁
  induction l₁ with
  | nil =>
    intro l₂ s
    rw [List.nil_append, List.nil_append, scan_cons_step w pos e l₂ s he0 he1, hpe]
  | cons a l₁ ih =>
    intro l₂ s
    by_cases ha : a ≠ 0 ∧ a &&& 1 = 0
    · rw [List.cons_append, List.cons_append,
        scan_cons_step w pos a (l₁ ++ e :: l₂) s ha.1 ha.2,
        scan_cons_step w pos a (l₁ ++ l₂) s ha.1 ha.2, ih]
    · have h' : a = 0 ∨ a &&& 1 ≠ 0 := by
        rcases not_and_or.mp ha with h0 | h1
        · exact Or.inl (not_not.mp h0)
        · exact Or.inr h1
      rw [List.cons_append, List.cons_append,
        scan_cons_terminal w pos a (l₁ ++ e :: l₂) s h',
        scan_cons_terminal w pos a (l₁ ++ l₂) s h']

theorem select_eq_priority_resolve (s : Cands) :
    (if s.lootable.is_valid then Option.some s.lootable
     else if s.gameobject.is_valid then Option.some s.gameobject
     else if s.skinnable.is_valid then Option.some s.skinnable
     else if s.alive_unit.is_valid then Option.some s.alive_unit
     else Option.none) = priority_resolve s := by
  unfold priority_resolve
  rcases h1 : s.lootable.is_valid <;> rcases h2 : s.gameobject.is_valid <;>
    rcases h3 : s.skinnable.is_valid <;> rcases h4 : s.alive_unit.is_valid <;>
      simp [List.find?, h1, h2, h3, h4]

theorem find_best_candidate_resolved (w : World π) (player : Nat)
    (hp : w.get_object_pointer w.player_guid = Option.some player) :
    find_best_candidate w =
      priority_resolve (scan w (w.get_unit_position player) w.entries Cands.init) := by
  rw [← select_eq_priority_resolve]
  simp only [find_best_candidate, hp]

end Interact

namespace Interact

variable {π : Type}

theorem cand_kind_ok_update (c : Candidate) (g p : Nat) (t : ObjectType) (d : ℚ)
    (h : cand_kind_ok c t) : cand_kind_ok (c.update g p t d) t := by
  unfold Candidate.update
  split
  · exact Or.inr rfl
  · exact h

theorem process_unit_shape (w : World π) (current guid : Nat) (t : ObjectType) (d : ℚ)
    (l sk a : Candidate) :
    ((process_unit w current guid t d l sk a).1 = l ∨
      (process_unit w current guid t d l sk a).1 = l.update guid current t d) ∧
    ((process_unit w current guid t d l sk a).2.1 = sk ∨
      (process_unit w current guid t d l sk a).2.1 = sk.update guid current t d) ∧
    ((process_unit w current guid t d l sk a).2.2 = a ∨
      (process_unit w current guid t d l sk a).2.2 = a.update guid current t d) := by
  simp only [process_unit]
  split_ifs <;> simp

theorem process_entry_kind_ok (w : World π) (pos : π) (current : Nat) (s : Cands)
    (h : cands_kind_ok s) : cands_kind_ok (process_entry w pos current s) := by
  cases hres : w.get_object_pointer (w.get_object_guid current) with
  | none => rw [process_entry_unresolved w pos current s hres]; exact h
  | some ptr =>
    by_cases hsum : is_player_summoned w ptr = true
    · rw [process_entry_summoned w pos current s ptr hres hsum]; exact h
    · rw [Bool.not_eq_true] at hsum
      have other : ∀ t', w.get_object_type ptr = t' → t' ≠ ObjectType.Unit →
          t' ≠ ObjectType.GameObject → cands_kind_ok (process_entry w pos current s) := by
        intro t' ht' hn1 hn2
        rw [process_entry_other_kind w pos current s ptr hres (ht' ▸ hn1) (ht' ▸ hn2)]
        exact h
      cases htype : w.get_object_type ptr
      · exact other _ htype (fun hc => ObjectType.noConfusion hc) (fun hc => ObjectType.noConfusion hc)
      · exact other _ htype (fun hc => ObjectType.noConfusion hc) (fun hc => ObjectType.noConfusion hc)
      · exact other _ htype (fun hc => ObjectType.noConfusion hc) (fun hc => ObjectType.noConfusion hc)
      · -- Unit
        by_cases hd : w.distance pos (w.get_unit_position current) ≤ MAX_DISTANCE
        · simp only [process_entry, hres, hsum, htype, entity_position, hd, if_true,
            Bool.false_eq_true, if_false]
          obtain ⟨s1, s2, s3⟩ := process_unit_shape w current (w.get_object_guid current)
            ObjectType.Unit (w.distance pos (w.get_unit_position current))
            s.lootable s.skinnable s.alive_unit
          refine ⟨?_, h.2.1, ?_, ?_⟩
          · rcases s1 with e | e <;> rw [e]
            · exact h.1
            · exact cand_kind_ok_update _ _ _ _ _ h.1
          · rcases s2 with e | e <;> rw [e]
            · exact h.2.2.1
            · exact cand_kind_ok_update _ _ _ _ _ h.2.2.1
          · rcases s3 with e | e <;> rw [e]
            · exact h.2.2.2
            · exact cand_kind_ok_update _ _ _ _ _ h.2.2.2
        · simp only [process_entry, hres, hsum, htype, entity_position, hd, if_false,
            Bool.false_eq_true]
          exact h
      · exact other _ htype (fun hc => ObjectType.noConfusion hc) (fun hc => ObjectType.noConfusion hc)
      · -- GameObject
        by_cases hd : w.distance pos (w.get_object_position current) ≤ MAX_DISTANCE
        · by_cases hbl : is_blacklisted (w.get_gameobject_id ptr) = true
          · rw [process_entry_blacklisted w pos current s ptr hres htype hbl]; exact h
          · rw [Bool.not_eq_true] at hbl
            simp only [process_entry, hres, hsum, htype, entity_position, hd, if_true,
              hbl, Bool.not_false, Bool.false_eq_true, if_false]
            exact ⟨h.1, cand_kind_ok_update _ _ _ _ _ h.2.1, h.2.2.1, h.2.2.2⟩
        · simp only [process_entry, hres, hsum, htype, entity_position, hd, if_false,
            Bool.false_eq_true]
          exact h
      · exact other _ htype (fun hc => ObjectType.noConfusion hc) (fun hc => ObjectType.noConfusion hc)
      · exact other _ htype (fun hc => ObjectType.noConfusion hc) (fun hc => ObjectType.noConfusion hc)

theorem scan_kind_ok (w : World π) (pos : π) (l : List Nat) (s : Cands)
    (h : cands_kind_ok s) : cands_kind_ok (scan w pos l s) := by
  induction l generalizing s with
  | nil => exact h
  | cons e rest ih =>
    by_cases he : e ≠ 0 ∧ e &&& 1 = 0
    · rw [scan_cons_step w pos e rest s he.1 he.2]
      exact ih _ (process_entry_kind_ok w pos e s h)
    · have h' : e = 0 ∨ e &&& 1 ≠ 0 := by
        rcases not_and_or.mp he with h0 | h1
        · exact Or.inl (not_not.mp h0)
        · exact Or.inr h1
      rw [scan_cons_terminal w pos e rest s h']
      exact h

theorem cands_kind_ok_init : cands_kind_ok Cands.init := by
  refine ⟨Or.inl rfl, Or.inl rfl, Or.inl rfl, Or.inl rfl⟩

theorem is_valid_ne_none (c : Candidate) (h : c.is_valid = true) :
    c.obj_type ≠ ObjectType.None := by
  simpa [Candidate.is_valid, bne_iff_ne] using h

end Interact

namespace Interact

variable {π : Type}

/-- C1: the engine returns the first valid candidate in the fixed
priority order lootable, gameobject, skinnable, alive; a valid
lootable candidate wins regardless of distance, and if no candidate is
valid the engine returns nothing. -/
theorem claim_priority_order (w : World π) (player : Nat)
    (hp : w.get_object_pointer w.player_guid = Option.some player) :
    find_best_candidate w =
      priority_resolve (scan w (w.get_unit_position player) w.entries Cands.init) ∧
    (∀ s : Cands, s.lootable.is_valid = true →
      priority_resolve s = Option.some s.lootable) ∧
    (∀ s : Cands,
      (s.lootable.is_valid || s.gameobject.is_valid ||
        s.skinnable.is_valid || s.alive_unit.is_valid) = false →
      priority_resolve s = Option.none) := by
  refine ⟨find_best_candidate_resolved w player hp, ?_, ?_⟩
  · intro s h
    simp [priority_resolve, List.find?, h]
  · intro s h
    simp only [Bool.or_eq_false_iff] at h
    simp [priority_resolve, List.find?, h.1.1.1, h.1.1.2, h.1.2, h.2]

/-- Witness for C1: in `wEx` the lootable dead unit at distance 4.9 is
selected over the game object at distance 0.5. -/
theorem claim_priority_order_witness :
    find_best_candidate wEx =
      priority_resolve (scan wEx (wEx.get_unit_position 100) wEx.entries Cands.init) ∧
    find_best_candidate wEx =
      Option.some ⟨2, 10, ObjectType.Unit, mkRat 49 10⟩ :=
  ⟨(claim_priority_order wEx 100 (by decide)).1, by decide⟩

/-- C3 counterexample: in `wNeg` the sole entity is an in-range,
otherwise eligible unit with health −1, yet no candidate is updated
(the scan state stays initial) and the engine returns nothing — the
claimed routing into the Living-creature candidate does not happen. -/
theorem claim_negative_vitality_cex :
    wNeg.get_unit_health 50 = -1 ∧
    process_unit wNeg 50 6 ObjectType.Unit 3 Candidate.new Candidate.new Candidate.new =
      (Candidate.new, Candidate.new, Candidate.new) ∧
    scan wNeg (wNeg.get_unit_position 100) wNeg.entries Cands.init = Cands.init ∧
    find_best_candidate wNeg = Option.none := by
  refine ⟨by decide, by decide, by decide, by decide⟩

/-- C3 amended: an in-range creature/character entity with negative
vitality updates no candidate at all — it falls through both the dead
and the alive branch of `process_unit`. -/
theorem claim_negative_vitality_amended (w : World π) (current guid : Nat) (t : ObjectType)
    (d : ℚ) (l sk a : Candidate) (h : w.get_unit_health current < 0) :
    process_unit w current guid t d l sk a = (l, sk, a) := by
  simp only [process_unit]
  rw [if_neg (by omega), if_neg (by omega)]

/-- Witness for the amended C3 at the concrete world `wNeg`. -/
theorem claim_negative_vitality_witness :
    wNeg.get_unit_health 50 < 0 ∧
    process_unit wNeg 50 6 ObjectType.Unit 3 Candidate.new Candidate.new Candidate.new =
      (Candidate.new, Candidate.new, Candidate.new) :=
  ⟨by decide, claim_negative_vitality_amended wNeg 50 6 ObjectType.Unit 3 _ _ _ (by decide)⟩

/-- C4: an entity whose distance to the agent strictly exceeds
`MAX_DISTANCE` (5.0) never updates any candidate, regardless of kind;
an entity at distance exactly 5.0 is not skipped — in `w5` the alive
unit at distance 5.0 is selected. -/
theorem claim_range_check (w : World π) (player_pos : π) (current : Nat) (s : Cands)
    (hu : MAX_DISTANCE < w.distance player_pos (w.get_unit_position current))
    (hg : MAX_DISTANCE < w.distance player_pos (w.get_object_position current)) :
    process_entry w player_pos current s = s ∧
    find_best_candidate w5 =
      Option.some { guid := 4, pointer := 30, obj_type := ObjectType.Unit, distance := 5 } :=
  ⟨process_entry_far w player_pos current s hu hg, by decide⟩

/-- Witness for C4: the unit of `wFar` at distance 6.0 updates nothing. -/
theorem claim_range_check_witness :
    MAX_DISTANCE < wFar.distance 0 (wFar.get_unit_position 70) ∧
    process_entry wFar 0 70 Cands.init = Cands.init :=
  ⟨by decide, (claim_range_check wFar 0 70 Cands.init (by decide) (by decide)).1⟩

/-- C5: an entity whose summoned-by guid is non-zero and resolves to a
Player-kind entity never updates any candidate and is dropped from the
traversal entirely; a zero or unresolvable summoned-by guid does not
exclude the entity. -/
theorem claim_player_summoned_excluded :
    (∀ (w : World π) (ptr : Nat), w.get_summoned_by_guid ptr = 0 →
      is_player_summoned w ptr = false) ∧
    (∀ (w : World π) (ptr : Nat), w.get_summoned_by_guid ptr ≠ 0 →
      w.get_object_pointer (w.get_summoned_by_guid ptr) = Option.none →
      is_player_summoned w ptr = false) ∧
    (∀ (w : World π) (player_pos : π) (current : Nat) (s : Cands) (ptr sp : Nat),
      w.get_object_pointer (w.get_object_guid current) = Option.some ptr →
      w.get_summoned_by_guid ptr ≠ 0 →
      w.get_object_pointer (w.get_summoned_by_guid ptr) = Option.some sp →
      w.get_object_type sp = ObjectType.Player →
      process_entry w player_pos current s = s) ∧
    (∀ (w : World π) (player_pos : π) (e ptr sp : Nat) (l₁ l₂ : List Nat) (s : Cands),
      e ≠ 0 → e &&& 1 = 0 →
      w.get_object_pointer (w.get_object_guid e) = Option.some ptr →
      w.get_summoned_by_guid ptr ≠ 0 →
      w.get_object_pointer (w.get_summoned_by_guid ptr) = Option.some sp →
      w.get_object_type sp = ObjectType.Player →
      scan w player_pos (l₁ ++ e :: l₂) s = scan w player_pos (l₁ ++ l₂) s) := by
  have hsum : ∀ (w : World π) (ptr sp : Nat), w.get_summoned_by_guid ptr ≠ 0 →
      w.get_object_pointer (w.get_summoned_by_guid ptr) = Option.some sp →
      w.get_object_type sp = ObjectType.Player →
      is_player_summoned w ptr = true := by
    intro w ptr sp h1 h2 h3
    simp [is_player_summoned, h1, h2, h3]
  refine ⟨?_, ?_, ?_, ?_⟩
  · intro w ptr h
    simp [is_player_summoned, h]
  · intro w ptr h hres
    simp [is_player_summoned, h, hres]
  · intro w pos current s ptr sp hres h1 h2 h3
    exact process_entry_summoned w pos current s ptr hres (hsum w ptr sp h1 h2 h3)
  · intro w pos e ptr sp l₁ l₂ s he0 he1 hres h1 h2 h3
    exact scan_skip w pos e
      (fun s' => process_entry_summoned w pos e s' ptr hres (hsum w ptr sp h1 h2 h3))
      he0 he1 l₁ l₂ s

/-- Witness for C5: in `wSum` the unit summoned by the player updates
nothing and the engine finds no candidate. -/
theorem claim_player_summoned_excluded_witness :
    is_player_summoned wSum 700 = true ∧
    process_entry wSum 0 60 Cands.init = Cands.init ∧
    find_best_candidate wSum = Option.none :=
  ⟨by decide,
   (@claim_player_summoned_excluded Nat).2.2.1 wSum 0 60 Cands.init 700 100
     (by decide) (by decide) (by decide) (by decide),
   by decide⟩

/-- C6: a GameObject-kind entity whose object id is in the blacklist
never updates the gameobject candidate; in `wBlack` the sole in-range
entity is a blacklisted object and the engine returns nothing. -/
theorem claim_blacklist_excluded :
    (∀ (w : World π) (player_pos : π) (current : Nat) (s : Cands) (ptr : Nat),
      w.get_object_pointer (w.get_object_guid current) = Option.some ptr →
      w.get_object_type ptr = ObjectType.GameObject →
      is_blacklisted (w.get_gameobject_id ptr) = true →
      process_entry w player_pos current s = s) ∧
    find_best_candidate wBlack = Option.none :=
  ⟨process_entry_blacklisted, by decide⟩

/-- Witness for C6 at `wBlack`: object id 179830 is blacklisted and its
entry updates nothing. -/
theorem claim_blacklist_excluded_witness :
    is_blacklisted (wBlack.get_gameobject_id 500) = true ∧
    process_entry wBlack 0 40 Cands.init = Cands.init :=
  ⟨by decide,
   (@claim_blacklist_excluded Nat).1 wBlack 0 40 Cands.init 500 (by decide) (by decide)
     (by decide)⟩

/-- C7: an entity handle that fails to resolve is skipped and traversal
continues; an unresolvable player handle aborts the pass with nothing;
an empty or fully out-of-range world yields nothing, not an error. -/
theorem claim_resolution_failures :
    (∀ (w : World π) (player_pos : π) (current : Nat) (s : Cands),
      w.get_object_pointer (w.get_object_guid current) = Option.none →
      process_entry w player_pos current s = s) ∧
    (∀ (w : World π) (player_pos : π) (current : Nat) (rest : List Nat) (s : Cands),
      current ≠ 0 → current &&& 1 = 0 →
      w.get_object_pointer (w.get_object_guid current) = Option.none →
      scan w player_pos (current :: rest) s = scan w player_pos rest s) ∧
    (∀ w : World π, w.get_object_pointer w.player_guid = Option.none →
      find_best_candidate w = Option.none) ∧
    (∀ (w : World π) (player : Nat), w.entries = [] →
      w.get_object_pointer w.player_guid = Option.some player →
      find_best_candidate w = Option.none) ∧
    (∀ (w : World π) (player : Nat),
      w.get_object_pointer w.player_guid = Option.some player →
      (∀ e ∈ w.entries,
        MAX_DISTANCE < w.distance (w.get_unit_position player) (w.get_unit_position e) ∧
        MAX_DISTANCE < w.distance (w.get_unit_position player) (w.get_object_position e)) →
      find_best_candidate w = Option.none) := by
  refine ⟨process_entry_unresolved, ?_, ?_, ?_, ?_⟩
  · intro w pos current rest s h0 h1 hres
    rw [scan_cons_step w pos current rest s h0 h1,
      process_entry_unresolved w pos current s hres]
  · intro w hp
    simp [find_best_candidate, hp]
  · intro w player hent hp
    rw [find_best_candidate_resolved w player hp, hent]
    exact (by decide : priority_resolve Cands.init = Option.none)
  · intro w player hp hfar
    rw [find_best_candidate_resolved w player hp,
      scan_noop w (w.get_unit_position player) w.entries Cands.init
        (fun e he s' => process_entry_far w _ e s' (hfar e he).1 (hfar e he).2)]
    exact (by decide : priority_resolve Cands.init = Option.none)

/-- Witness for C7: a world with an unresolvable player handle and a
fully out-of-range world both yield nothing. -/
theorem claim_resolution_failures_witness :
    find_best_candidate wNoP = Option.none ∧ find_best_candidate wFar = Option.none :=
  ⟨(@claim_resolution_failures Nat).2.2.1 wNoP (by decide),
   (@claim_resolution_failures Nat).2.2.2.2 wFar 100 (by decide) (by decide)⟩

/-- C10: any selected winner has kind Unit or GameObject; entities of
any other kind (Item, Container, Player, DynamicObject, Corpse, None)
never update a candidate; and the remains candidates (lootable /
skinnable) change only when the unit's health is exactly zero. -/
theorem claim_winner_kind :
    (∀ (w : World π) (c : Candidate), find_best_candidate w = Option.some c →
      c.obj_type = ObjectType.Unit ∨ c.obj_type = ObjectType.GameObject) ∧
    (∀ (w : World π) (player_pos : π) (current : Nat) (s : Cands) (ptr : Nat),
      w.get_object_pointer (w.get_object_guid current) = Option.some ptr →
      w.get_object_type ptr ≠ ObjectType.Unit →
      w.get_object_type ptr ≠ ObjectType.GameObject →
      process_entry w player_pos current s = s) ∧
    (∀ (w : World π) (current guid : Nat) (t : ObjectType) (d : ℚ) (l sk a : Candidate),
      w.get_unit_health current ≠ 0 →
      (process_unit w current guid t d l sk a).1 = l ∧
      (process_unit w current guid t d l sk a).2.1 = sk) := by
  refine ⟨?_, process_entry_other_kind, ?_⟩
  · intro w c hfb
    cases hp : w.get_object_pointer w.player_guid with
    | none => simp [find_best_candidate, hp] at hfb
    | some player =>
      have hwf : cands_kind_ok (scan w (w.get_unit_position player) w.entries Cands.init) :=
        scan_kind_ok w _ w.entries Cands.init cands_kind_ok_init
      rw [find_best_candidate_resolved w player hp, ← select_eq_priority_resolve] at hfb
      set s := scan w (w.get_unit_position player) w.entries Cands.init with hs
      split_ifs at hfb with h1 h2 h3 h4
      · obtain rfl : s.lootable = c := Option.some.inj hfb
        rcases hwf.1 with hN | hU
        · exact absurd hN (is_valid_ne_none _ h1)
        · exact Or.inl hU
      · obtain rfl : s.gameobject = c := Option.some.inj hfb
        rcases hwf.2.1 with hN | hG
        · exact absurd hN (is_valid_ne_none _ h2)
        · exact Or.inr hG
      · obtain rfl : s.skinnable = c := Option.some.inj hfb
        rcases hwf.2.2.1 with hN | hU
        · exact absurd hN (is_valid_ne_none _ h3)
        · exact Or.inl hU
      · obtain rfl : s.alive_unit = c := Option.some.inj hfb
        rcases hwf.2.2.2 with hN | hU
        · exact absurd hN (is_valid_ne_none _ h4)
        · exact Or.inl hU
  · intro w current guid t d l sk a hh
    simp only [process_unit]
    rw [if_neg hh]
    split_ifs <;> exact ⟨rfl, rfl⟩

/-- Witness for C10: the winner selected in `wEx` has Unit kind. -/
theorem claim_winner_kind_witness :
    (⟨2, 10, ObjectType.Unit, mkRat 49 10⟩ : Candidate).obj_type = ObjectType.Unit ∨
    (⟨2, 10, ObjectType.Unit, mkRat 49 10⟩ : Candidate).obj_type = ObjectType.GameObject :=
  (@claim_winner_kind Nat).1 wEx _ (by decide)

end Interact
